import Mathlib

/-!
Verification of the unicorn-bios BIOS disk service layer.

This file gives a shallow embedding of the INT 13h disk service handlers
(`UB::BIOS::Disk` in the repository source), the interrupt dispatcher
installed by `UB::Machine::IMPL::_setup`, and `UB::Machine::start`.
The CPU engine facade (register accessors, linear addressing, bulk memory
access) and the FAT image interface (`FAT::Image`, `FAT::MBR`, `FAT::DAP`)
are not part of the provided sources; those are modelled from the
specification, with a doc comment marking each such definition.
-/

namespace UB

/-- Modelled from the spec: the guest CPU state exposed by the engine
facade (`UB::Engine`, not in the provided sources): 16-bit general and
segment registers, the carry flag, flat guest memory indexed by linear
address, and a log of the bulk memory reads issued through
`Engine::read(addr, len)` (most recent first). -/
@[ext]
structure EngineState where
  ax : Nat
  bx : Nat
  cx : Nat
  dx : Nat
  si : Nat
  di : Nat
  cs : Nat
  ds : Nat
  es : Nat
  ss : Nat
  cf : Bool
  mem : Nat → Nat
  reads : List (Nat × Nat)

/-- Modelled from the spec: `Engine::al()`, the low byte of AX. -/
def al (e : EngineState) : Nat := e.ax % 256

/-- Modelled from the spec: `Engine::ah()`, the high byte of AX. -/
def ah (e : EngineState) : Nat := e.ax / 256 % 256

/-- Modelled from the spec: `Engine::cl()`, the low byte of CX. -/
def cl (e : EngineState) : Nat := e.cx % 256

/-- Modelled from the spec: `Engine::ch()`, the high byte of CX. -/
def ch (e : EngineState) : Nat := e.cx / 256 % 256

/-- Modelled from the spec: `Engine::dl()`, the low byte of DX. -/
def dl (e : EngineState) : Nat := e.dx % 256

/-- Modelled from the spec: `Engine::dh()`, the high byte of DX. -/
def dh (e : EngineState) : Nat := e.dx / 256 % 256

/-- Modelled from the spec: `Engine::ah(v)`, writing the high byte of AX. -/
def setAH (e : EngineState) (v : Nat) : EngineState :=
  { e with ax := v % 256 * 256 + e.ax % 256 }

/-- Modelled from the spec: `Engine::al(v)`, writing the low byte of AX. -/
def setAL (e : EngineState) (v : Nat) : EngineState :=
  { e with ax := e.ax / 256 % 256 * 256 + v % 256 }

/-- Modelled from the spec: `Engine::bx(v)`. -/
def setBX (e : EngineState) (v : Nat) : EngineState := { e with bx := v % 65536 }

/-- Modelled from the spec: `Engine::cx(v)`. -/
def setCX (e : EngineState) (v : Nat) : EngineState := { e with cx := v % 65536 }

/-- Modelled from the spec: `Engine::getAddress(segment, offset)`, the
real-mode linear address `segment * 16 + offset`. -/
def getAddress (seg off : Nat) : Nat := seg * 16 + off

/-- Modelled from the spec: `Engine::write(addr, bytes)`, writing a byte
vector to guest memory at a linear address. -/
def writeMem (addr : Nat) (bytes : List Nat) (m : Nat → Nat) : Nat → Nat :=
  fun a => if addr ≤ a ∧ a < addr + bytes.length then bytes.getD (a - addr) 0 else m a

/-- Modelled from the spec: the byte vector returned by
`Engine::read(addr, n)` on guest memory. -/
def engineReadBytes (e : EngineState) (addr n : Nat) : List Nat :=
  (List.range n).map fun i => e.mem (addr + i)

/-- Records one `Engine::read(addr, n)` call in the read log. -/
def logRead (e : EngineState) (addr n : Nat) : EngineState :=
  { e with reads := (addr, n) :: e.reads }

/-- Modelled from the spec: the MBR geometry fields consumed from
`FAT::MBR` (bytes-per-sector, sectors-per-track, number-of-heads, and a
validity flag). -/
structure MBR where
  isValid : Bool
  bytesPerSector : Nat
  sectorsPerTrack : Nat
  numberOfHeads : Nat

/-- Modelled from the spec: `FAT::Image`, an immutable boot image with
MBR-derived geometry over a raw byte vector. -/
structure Image where
  mbr : MBR
  data : List Nat

/-- The bytes-per-sector actually used: the MBR value when the MBR is
valid, 512 otherwise (source line 140 of the disk handlers; the spec
fixes the same default for the image reads). -/
def effectiveBPS (img : Image) : Nat :=
  if img.mbr.isValid then img.mbr.bytesPerSector else 512

/-- Modelled from the spec: `FAT::chsToLBA`, with
`LBA = (cylinder * numberOfHeads + head) * sectorsPerTrack + (sector - 1)`;
CHS sector numbers are 1-based. -/
def chsToLBA (m : MBR) (cylinder sector head : Nat) : Nat :=
  (cylinder * m.numberOfHeads + head) * m.sectorsPerTrack + (sector - 1)

/-- Modelled from the spec: `FAT::Image::read(byte_offset, size)`,
returning `size` raw bytes at `byte_offset`, and the empty vector when
the requested range is out of range. -/
def Image.readRange (img : Image) (offset size : Nat) : List Nat :=
  if offset + size ≤ img.data.length then (img.data.drop offset).take size else []

/-- Modelled from the spec: `FAT::Image::read(cylinder, head, sector, count)`,
the CHS read: bytes at offset `chsToLBA * bytesPerSector`, of size
`count * bytesPerSector`, empty when out of range. -/
def Image.readCHS (img : Image) (cylinder head sector count : Nat) : List Nat :=
  img.readRange (chsToLBA img.mbr cylinder sector head * effectiveBPS img)
    (count * effectiveBPS img)

/-- One byte of a byte vector, as `BinaryDataStream` delivers it. -/
def byteAt (bs : List Nat) (i : Nat) : Nat := bs.getD i 0 % 256

/-- A little-endian unsigned integer of `n` bytes at offset `off` of a
byte vector. -/
def leAt (bs : List Nat) : Nat → Nat → Nat
  | _, 0 => 0
  | off, n + 1 => byteAt bs off + 256 * leAt bs (off + 1) n

/-- Modelled from the spec: the decoded `FAT::DAP` fields. -/
structure DAP where
  size : Nat
  zero : Nat
  numberOfSectors : Nat
  destinationOffset : Nat
  destinationSegment : Nat
  logicalBlockAddress : Nat

/-- Modelled from the spec: `FAT::DAP` decoding of the packed 16-byte
little-endian disk address packet: size (1 byte at 0), reserved (1 byte
at 1), number-of-sectors (2 bytes at 2), destination-offset (2 bytes at
4), destination-segment (2 bytes at 6), logical-block-address (8 bytes
at 8). -/
def DAP.ofBytes (bs : List Nat) : DAP :=
  { size := byteAt bs 0
    zero := byteAt bs 1
    numberOfSectors := leAt bs 2 2
    destinationOffset := leAt bs 4 2
    destinationSegment := leAt bs 6 2
    logicalBlockAddress := leAt bs 8 8 }

/-- Modelled from the spec: `FAT::DAP::DataSize()`, the 16-byte packet size. -/
def DAP.DataSize : Nat := 16

namespace BIOS

namespace Disk

/-- `UB::BIOS::Disk::reset` (INT 13h / AH=00h): clear CF, set AH=0,
report the interrupt serviced. -/
def reset (e : EngineState) : Bool × EngineState :=
  (true, setAH { e with cf := false } 0)

/-- `UB::BIOS::Disk::readSectors` (INT 13h / AH=02h): CHS read of
AL sectors from drive DL at CH/CL/DH into ES:BX; errors set CF=1, AH=1,
AL=0, success writes the bytes and sets CF=0, AH=0, AL=sectors. -/
def readSectors (img : Image) (e : EngineState) : Bool × EngineState :=
  let driveNumber := dl e
  let sectors := al e
  let cylinder := ch e
  let sector := cl e
  let head := dh e
  let destination := getAddress e.es e.bx
  if driveNumber ≠ 0 then
    (true, setAL (setAH { e with cf := true } 1) 0)
  else
    let bytes := img.readCHS cylinder head sector sectors
    if bytes.length = 0 then
      (true, setAL (setAH { e with cf := true } 1) 0)
    else
      (true, setAL (setAH { e with
        cf := false
        mem := writeMem destination bytes e.mem } 0) sectors)

/-- `UB::BIOS::Disk::checkExtensions` (INT 13h / AH=41h): BX=0xAA55,
CF=0, AH=0, CX=7, in source order. -/
def checkExtensions (e : EngineState) : Bool × EngineState :=
  let e1 := setBX e 0xAA55
  let e2 := { e1 with cf := false }
  let e3 := setAH e2 0
  (true, setCX e3 7)

/-- The DAP decoded from the 16 bytes of guest memory at DS:SI, as
`extendedReadSectors` decodes it. -/
def dapOf (e : EngineState) : DAP :=
  DAP.ofBytes (engineReadBytes e (getAddress e.ds e.si) DAP.DataSize)

/-- The byte offset `logicalBlockAddress * bytesPerSector` computed by
`extendedReadSectors` in 64-bit unsigned arithmetic (source line 141). -/
def extOffset (img : Image) (e : EngineState) : Nat :=
  (dapOf e).logicalBlockAddress * effectiveBPS img % 2 ^ 64

/-- The byte count `numberOfSectors * bytesPerSector` computed by
`extendedReadSectors` in 64-bit unsigned arithmetic (source line 142). -/
def extSize (img : Image) (e : EngineState) : Nat :=
  (dapOf e).numberOfSectors * effectiveBPS img % 2 ^ 64

/-- `UB::BIOS::Disk::extendedReadSectors` (INT 13h / AH=42h): read the
DAP at DS:SI, read `numberOfSectors * bytesPerSector` bytes of the image
at byte offset `LBA * bytesPerSector` (64-bit arithmetic), write them to
the linear address of the destination segment:offset; errors set CF=1,
AH=1, success sets CF=0, AH=0. The DAP is read and decoded before the
drive-number check, as in the source. -/
def extendedReadSectors (img : Image) (e : EngineState) : Bool × EngineState :=
  let driveNumber := dl e
  let dapAddress := getAddress e.ds e.si
  let e0 := logRead e dapAddress DAP.DataSize
  let dap := dapOf e
  let destination := getAddress dap.destinationSegment dap.destinationOffset
  let offset := extOffset img e
  let size := extSize img e
  if driveNumber ≠ 0 then
    (true, setAH { e0 with cf := true } 1)
  else
    let bytes := img.readRange offset size
    if bytes.length = 0 then
      (true, setAH { e0 with cf := true } 1)
    else
      (true, setAH { e0 with
        cf := false
        mem := writeMem destination bytes e0.mem } 0)

end Disk

end BIOS

/-- The per-vector interrupt handlers the dispatcher multiplexes to
(`UB::Interrupts::int0x05` .. `int0x1A`). Their bodies are outside the
disk layer; the dispatcher only invokes them and discards their result,
so they are abstract state transformers here. -/
structure Handlers where
  int0x05 : EngineState → EngineState
  int0x10 : EngineState → EngineState
  int0x11 : EngineState → EngineState
  int0x12 : EngineState → EngineState
  int0x13 : EngineState → EngineState
  int0x14 : EngineState → EngineState
  int0x15 : EngineState → EngineState
  int0x16 : EngineState → EngineState
  int0x17 : EngineState → EngineState
  int0x18 : EngineState → EngineState
  int0x19 : EngineState → EngineState
  int0x1A : EngineState → EngineState

/-- The interrupt callback registered by `UB::Machine::IMPL::_setup`:
switch on the interrupt number, invoke the matching per-vector handler
and return true; return false, leaving the state alone, on any other
vector. -/
def onInterruptCallback (H : Handlers) (i : Nat) (e : EngineState) : Bool × EngineState :=
  if i = 0x05 then (true, H.int0x05 e)
  else if i = 0x10 then (true, H.int0x10 e)
  else if i = 0x11 then (true, H.int0x11 e)
  else if i = 0x12 then (true, H.int0x12 e)
  else if i = 0x13 then (true, H.int0x13 e)
  else if i = 0x14 then (true, H.int0x14 e)
  else if i = 0x15 then (true, H.int0x15 e)
  else if i = 0x16 then (true, H.int0x16 e)
  else if i = 0x17 then (true, H.int0x17 e)
  else if i = 0x18 then (true, H.int0x18 e)
  else if i = 0x19 then (true, H.int0x19 e)
  else if i = 0x1A then (true, H.int0x1A e)
  else (false, e)

/-- The recognised interrupt vectors of the dispatcher. -/
def recognisedVectors : List Nat :=
  [0x05, 0x10, 0x11, 0x12, 0x13, 0x14, 0x15, 0x16, 0x17, 0x18, 0x19, 0x1A]

/-- `UB::Machine`: the memory size and the engine it owns. Modelled from
the spec: `Engine::start(entry_point)` (not in the provided sources) runs
the engine from a physical entry address and returns its success/failure
boolean when it halts, so it appears as an abstract function of the entry
address. -/
structure Machine where
  memory : Nat
  engineStart : Nat → Bool

/-- `UB::Machine::start`: `return this->impl->_engine.start( 0x7C00 )`. -/
def Machine.start (m : Machine) : Bool := m.engineStart 0x7C00

end UB

namespace UB

/-! ### Helper lemmas about the register setters -/

theorem ah_setAH (e : EngineState) (v : Nat) : ah (setAH e v) = v % 256 := by
  simp only [ah, setAH]
  omega

theorem al_setAH (e : EngineState) (v : Nat) : al (setAH e v) = al e := by
  simp only [al, setAH]
  omega

theorem ah_setAL (e : EngineState) (v : Nat) : ah (setAL e v) = ah e := by
  simp only [ah, setAL]
  omega

theorem al_setAL (e : EngineState) (v : Nat) : al (setAL e v) = v % 256 := by
  simp only [al, setAL]
  omega

theorem readRange_length (img : Image) (o s : Nat) :
    (img.readRange o s).length = 0 ∨ (img.readRange o s).length = s := by
  rw [Image.readRange]
  split_ifs with h
  · right
    simp only [List.length_take, List.length_drop]
    omega
  · left
    rfl

theorem readRange_length_of_ne_nil (img : Image) (o s : Nat)
    (h : img.readRange o s ≠ []) : (img.readRange o s).length = s := by
  rcases readRange_length img o s with h0 | hs
  · exact absurd (List.length_eq_zero.mp h0) h
  · exact hs

end UB

namespace UB

/-! ### The claims -/

/-- Claim C7: INT 13h / AH=00h (reset) sets CF=0 and AH=0, performs no
write to guest memory and no engine read, and is idempotent: applying it
again yields the same state. -/
theorem reset_noop (e : EngineState) :
    ((BIOS.Disk.reset e).2).cf = false ∧ ah ((BIOS.Disk.reset e).2) = 0
    ∧ ((BIOS.Disk.reset e).2).mem = e.mem
    ∧ ((BIOS.Disk.reset e).2).reads = e.reads
    ∧ (BIOS.Disk.reset ((BIOS.Disk.reset e).2)).2 = (BIOS.Disk.reset e).2 := by
  refine ⟨rfl, by simp [BIOS.Disk.reset, ah_setAH], rfl, rfl, ?_⟩
  simp only [BIOS.Disk.reset, setAH]
  ext <;> simp [Nat.mod_mod_of_dvd]

/-- Claim C9: every disk-service handler (reset, readSectors,
checkExtensions, extendedReadSectors) returns true on every path,
including its failure paths, so a recognised INT 13h interrupt is always
reported to the engine as serviced. -/
theorem disk_handlers_return_true (img : Image) (e : EngineState) :
    (BIOS.Disk.reset e).1 = true
    ∧ (BIOS.Disk.readSectors img e).1 = true
    ∧ (BIOS.Disk.checkExtensions e).1 = true
    ∧ (BIOS.Disk.extendedReadSectors img e).1 = true := by
  refine ⟨rfl, ?_, rfl, ?_⟩
  · by_cases h1 : dl e = 0 <;>
      simp [BIOS.Disk.readSectors, h1] <;> first | rfl | (split <;> rfl)
  · by_cases h1 : dl e = 0 <;>
      simp [BIOS.Disk.extendedReadSectors, h1] <;> first | rfl | (split <;> rfl)

/-- Claim C8: INT 13h / AH=42h reads the 16-byte DAP from the linear
address of DS:SI on every invocation, before the drive-number check: the
read log always gains exactly the read of 16 bytes at
`getAddress ds si`, including when DL is not 0. -/
theorem extendedReadSectors_reads_dap (img : Image) (e : EngineState) :
    ((BIOS.Disk.extendedReadSectors img e).2).reads
      = (getAddress e.ds e.si, 16) :: e.reads := by
  by_cases h1 : dl e = 0 <;>
    simp [BIOS.Disk.extendedReadSectors, h1, logRead, setAH, DAP.DataSize] <;>
    first | rfl | (split <;> rfl)

/-- Claim C6: `Machine::start` invokes engine execution at physical
address 0x7C00, which is the linear address of CS:IP = 0000:7C00, and
returns the engine boolean. -/
theorem machine_start_spec (m : Machine) :
    Machine.start m = m.engineStart 0x7C00 ∧ getAddress 0 0x7C00 = 0x7C00 := by
  exact ⟨rfl, rfl⟩

/-! ### Concrete states and images for evaluation -/

/-- A concrete engine state: AL=1 (one sector), CH=0, CL=1 (first
sector), DH=0, DL=0, ES:BX = 0000:0000, zeroed memory. -/
def sampleState : EngineState :=
  { ax := 1
    bx := 0
    cx := 1
    dx := 0
    si := 0
    di := 0
    cs := 0
    ds := 0
    es := 0
    ss := 0
    cf := true
    mem := fun _ => 0
    reads := [] }

/-- A concrete three-byte image with a valid single-byte-sector MBR. -/
def sampleImage : Image :=
  { mbr := { isValid := true, bytesPerSector := 1, sectorsPerTrack := 1, numberOfHeads := 1 }
    data := [7, 8, 9] }

/-- A concrete empty image with an invalid MBR (bytes-per-sector
defaults to 512). -/
def emptyImage : Image :=
  { mbr := { isValid := false, bytesPerSector := 0, sectorsPerTrack := 0, numberOfHeads := 0 }
    data := [] }

/-- A concrete engine state with DL=0x80 (a non-zero drive) and AL=5. -/
def badDriveState : EngineState :=
  { ax := 5
    bx := 0
    cx := 0
    dx := 0x80
    si := 0
    di := 0
    cs := 0
    ds := 0
    es := 0
    ss := 0
    cf := false
    mem := fun _ => 0
    reads := [] }

/-- A concrete engine state with DL=0 whose memory holds a DAP at
DS:SI = 0000:0500: numberOfSectors=1, destination 0000:0000, LBA=0. -/
def dapState : EngineState :=
  { ax := 0
    bx := 0
    cx := 0
    dx := 0
    si := 0x500
    di := 0
    cs := 0
    ds := 0
    es := 0
    ss := 0
    cf := true
    mem := fun a => if a = 0x502 then 1 else 0
    reads := [] }

/-- A concrete two-byte image with a valid single-byte-sector MBR. -/
def dapImage : Image :=
  { mbr := { isValid := true, bytesPerSector := 1, sectorsPerTrack := 1, numberOfHeads := 1 }
    data := [5, 6] }

/-- Concrete per-vector handlers: the identity on every vector. -/
def sampleHandlers : Handlers :=
  { int0x05 := id
    int0x10 := id
    int0x11 := id
    int0x12 := id
    int0x13 := id
    int0x14 := id
    int0x15 := id
    int0x16 := id
    int0x17 := id
    int0x18 := id
    int0x19 := id
    int0x1A := id }

/-- Claim C1: INT 13h / AH=02h with DL=0 and a non-empty image read
writes exactly the bytes of `Image.read(cylinder, head, sector, sectors)`
to guest memory at the linear address of ES:BX, leaves all other memory
unchanged, and sets CF=0, AH=0, AL = sectors read, with the number of
bytes written equal to AL times the bytes-per-sector in use. -/
theorem readSectors_success (img : Image) (e : EngineState)
    (hdl : dl e = 0)
    (hne : img.readCHS (ch e) (dh e) (cl e) (al e) ≠ []) :
    ((BIOS.Disk.readSectors img e).2).cf = false
    ∧ ah ((BIOS.Disk.readSectors img e).2) = 0
    ∧ al ((BIOS.Disk.readSectors img e).2) = al e
    ∧ (∀ a, ((BIOS.Disk.readSectors img e).2).mem a =
        if getAddress e.es e.bx ≤ a
            ∧ a < getAddress e.es e.bx + (img.readCHS (ch e) (dh e) (cl e) (al e)).length
        then (img.readCHS (ch e) (dh e) (cl e) (al e)).getD (a - getAddress e.es e.bx) 0
        else e.mem a)
    ∧ (img.readCHS (ch e) (dh e) (cl e) (al e)).length
        = al ((BIOS.Disk.readSectors img e).2) * effectiveBPS img := by
  have hres : (BIOS.Disk.readSectors img e).2
      = setAL (setAH { e with
          cf := false
          mem := writeMem (getAddress e.es e.bx)
            (img.readCHS (ch e) (dh e) (cl e) (al e)) e.mem } 0) (al e) := by
    simp [BIOS.Disk.readSectors, hdl, hne]
  have hal : al ((BIOS.Disk.readSectors img e).2) = al e := by
    rw [hres, al_setAL, al]
    omega
  refine ⟨by rw [hres]; rfl, ?_, hal, ?_, ?_⟩
  · rw [hres, ah_setAL, ah_setAH]
  · intro a
    rw [hres]
    rfl
  · rw [hal]
    have hlen := readRange_length_of_ne_nil img
      (chsToLBA img.mbr (ch e) (cl e) (dh e) * effectiveBPS img)
      (al e * effectiveBPS img)
    rw [Image.readCHS] at hne ⊢
    exact hlen hne

/-- Witness for C1 at a concrete state and image: one sector of one
byte read from sector 1 lands at address 0 with CF=0, AH=0, AL=1. -/
theorem readSectors_success_witness :
    dl sampleState = 0
    ∧ ((BIOS.Disk.readSectors sampleImage sampleState).2).cf = false
    ∧ ah ((BIOS.Disk.readSectors sampleImage sampleState).2) = 0
    ∧ al ((BIOS.Disk.readSectors sampleImage sampleState).2) = 1
    ∧ ((BIOS.Disk.readSectors sampleImage sampleState).2).mem 0 = 7
    ∧ ((BIOS.Disk.readSectors sampleImage sampleState).2).mem 1 = 0 := by
  have h := readSectors_success sampleImage sampleState (by decide) (by decide)
  obtain ⟨hcf, hah, hal, hmem, _⟩ := h
  refine ⟨by decide, hcf, hah, ?_, ?_, ?_⟩
  · rw [hal]
    decide
  · rw [hmem 0]
    decide
  · rw [hmem 1]
    decide

/-- Claim C4: INT 13h / AH=02h with DL=0 whose image read returns fewer
bytes than the requested `sectors * bytesPerSector` (in particular an
empty result) sets CF=1, AH=1, AL=0. -/
theorem readSectors_short_read (img : Image) (e : EngineState)
    (hdl : dl e = 0)
    (hshort : (img.readCHS (ch e) (dh e) (cl e) (al e)).length
      < al e * effectiveBPS img) :
    ((BIOS.Disk.readSectors img e).2).cf = true
    ∧ ah ((BIOS.Disk.readSectors img e).2) = 1
    ∧ al ((BIOS.Disk.readSectors img e).2) = 0 := by
  have hemp : img.readCHS (ch e) (dh e) (cl e) (al e) = [] := by
    rw [Image.readCHS] at hshort ⊢
    rcases readRange_length img
        (chsToLBA img.mbr (ch e) (cl e) (dh e) * effectiveBPS img)
        (al e * effectiveBPS img) with h0 | hs
    · exact List.length_eq_zero.mp h0
    · omega
  have hres : (BIOS.Disk.readSectors img e).2
      = setAL (setAH { e with cf := true } 1) 0 := by
    simp [BIOS.Disk.readSectors, hdl, hemp]
  refine ⟨by rw [hres]; rfl, ?_, ?_⟩
  · rw [hres, ah_setAL, ah_setAH]
  · rw [hres, al_setAL]

/-- Witness for C4: a one-sector read against an empty image returns no
bytes, which is fewer than the 512 requested, and yields CF=1, AH=1,
AL=0. -/
theorem readSectors_short_read_witness :
    dl sampleState = 0
    ∧ (emptyImage.readCHS (ch sampleState) (dh sampleState) (cl sampleState)
        (al sampleState)).length < al sampleState * effectiveBPS emptyImage
    ∧ ((BIOS.Disk.readSectors emptyImage sampleState).2).cf = true
    ∧ ah ((BIOS.Disk.readSectors emptyImage sampleState).2) = 1
    ∧ al ((BIOS.Disk.readSectors emptyImage sampleState).2) = 0 := by
  have h := readSectors_short_read emptyImage sampleState (by decide) (by decide)
  exact ⟨by decide, by decide, h.1, h.2.1, h.2.2⟩

/-- Counterexample for C3 as stated: with DL=0x80, AH=00h (reset) leaves
CF clear, AH=41h (checkExtensions) leaves CF clear, and AH=42h
(extendedReadSectors) leaves AL at its previous value 5 instead of 0, so
not every disk operation with a non-zero DL yields CF=1, AH=0x01, AL=0. -/
theorem drive_check_counterexample :
    dl badDriveState = 0x80
    ∧ ((BIOS.Disk.reset badDriveState).2).cf = false
    ∧ ah ((BIOS.Disk.reset badDriveState).2) = 0
    ∧ ((BIOS.Disk.checkExtensions badDriveState).2).cf = false
    ∧ al ((BIOS.Disk.extendedReadSectors sampleImage badDriveState).2) = 5 := by
  refine ⟨by decide, rfl, by decide, rfl, by decide⟩

/-- Claim C3 (amended): the drive-number check belongs to the two read
operations only. INT 13h / AH=02h with DL not 0 sets CF=1, AH=0x01,
AL=0; INT 13h / AH=42h with DL not 0 sets CF=1, AH=0x01 and leaves AL
unchanged; AH=00h (reset) and AH=41h (checkExtensions) do not examine
DL. -/
theorem read_handlers_drive_check (img : Image) (e : EngineState)
    (hdl : dl e ≠ 0) :
    ((BIOS.Disk.readSectors img e).2).cf = true
    ∧ ah ((BIOS.Disk.readSectors img e).2) = 1
    ∧ al ((BIOS.Disk.readSectors img e).2) = 0
    ∧ ((BIOS.Disk.extendedReadSectors img e).2).cf = true
    ∧ ah ((BIOS.Disk.extendedReadSectors img e).2) = 1
    ∧ al ((BIOS.Disk.extendedReadSectors img e).2) = al e := by
  have hres : (BIOS.Disk.readSectors img e).2
      = setAL (setAH { e with cf := true } 1) 0 := by
    simp [BIOS.Disk.readSectors, hdl]
  have hres2 : (BIOS.Disk.extendedReadSectors img e).2
      = setAH { logRead e (getAddress e.ds e.si) DAP.DataSize with cf := true } 1 := by
    simp [BIOS.Disk.extendedReadSectors, hdl]
  refine ⟨by rw [hres]; rfl, ?_, ?_, by rw [hres2]; rfl, ?_, ?_⟩
  · rw [hres, ah_setAL, ah_setAH]
  · rw [hres, al_setAL]
  · rw [hres2, ah_setAH]
  · rw [hres2, al_setAH]
    rfl

/-- Witness for the amended C3 at DL=0x80, AL=5: both read handlers set
CF=1 and AH=1, AH=02h zeroes AL, and AH=42h leaves AL=5. -/
theorem read_handlers_drive_check_witness :
    dl badDriveState ≠ 0
    ∧ ((BIOS.Disk.readSectors sampleImage badDriveState).2).cf = true
    ∧ ah ((BIOS.Disk.readSectors sampleImage badDriveState).2) = 1
    ∧ al ((BIOS.Disk.readSectors sampleImage badDriveState).2) = 0
    ∧ ((BIOS.Disk.extendedReadSectors sampleImage badDriveState).2).cf = true
    ∧ al ((BIOS.Disk.extendedReadSectors sampleImage badDriveState).2) = 5 := by
  have h := read_handlers_drive_check sampleImage badDriveState (by decide)
  refine ⟨by decide, h.1, h.2.1, h.2.2.1, h.2.2.2.1, ?_⟩
  rw [h.2.2.2.2.2]
  decide

/-- Claim C2: INT 13h / AH=42h with DL=0 decodes the 16-byte DAP read
from the linear address of DS:SI, computes the byte offset
`logicalBlockAddress * bytesPerSector` and the size
`numberOfSectors * bytesPerSector` (bytes-per-sector from the MBR when
valid, 512 otherwise; the hypotheses keep both products inside the
64-bit arithmetic of the source), reads that range of the image, and on
a non-empty result writes the bytes to the linear address of
destination-segment:destination-offset with CF=0 and AH=0, while an
empty result yields CF=1 and AH=1. -/
theorem extendedReadSectors_spec (img : Image) (e : EngineState)
    (hdl : dl e = 0)
    (hoff : (BIOS.Disk.dapOf e).logicalBlockAddress * effectiveBPS img < 2 ^ 64)
    (hsz : (BIOS.Disk.dapOf e).numberOfSectors * effectiveBPS img < 2 ^ 64) :
    (img.readRange ((BIOS.Disk.dapOf e).logicalBlockAddress * effectiveBPS img)
        ((BIOS.Disk.dapOf e).numberOfSectors * effectiveBPS img) ≠ [] →
      ((BIOS.Disk.extendedReadSectors img e).2).cf = false
      ∧ ah ((BIOS.Disk.extendedReadSectors img e).2) = 0
      ∧ (∀ a, ((BIOS.Disk.extendedReadSectors img e).2).mem a =
          if getAddress (BIOS.Disk.dapOf e).destinationSegment
              (BIOS.Disk.dapOf e).destinationOffset ≤ a
            ∧ a < getAddress (BIOS.Disk.dapOf e).destinationSegment
                (BIOS.Disk.dapOf e).destinationOffset
              + (img.readRange
                  ((BIOS.Disk.dapOf e).logicalBlockAddress * effectiveBPS img)
                  ((BIOS.Disk.dapOf e).numberOfSectors * effectiveBPS img)).length
          then (img.readRange
              ((BIOS.Disk.dapOf e).logicalBlockAddress * effectiveBPS img)
              ((BIOS.Disk.dapOf e).numberOfSectors * effectiveBPS img)).getD
            (a - getAddress (BIOS.Disk.dapOf e).destinationSegment
              (BIOS.Disk.dapOf e).destinationOffset) 0
          else e.mem a))
    ∧ (img.readRange ((BIOS.Disk.dapOf e).logicalBlockAddress * effectiveBPS img)
        ((BIOS.Disk.dapOf e).numberOfSectors * effectiveBPS img) = [] →
      ((BIOS.Disk.extendedReadSectors img e).2).cf = true
      ∧ ah ((BIOS.Disk.extendedReadSectors img e).2) = 1) := by
  have hoff2 : BIOS.Disk.extOffset img e
      = (BIOS.Disk.dapOf e).logicalBlockAddress * effectiveBPS img := by
    rw [BIOS.Disk.extOffset]
    exact Nat.mod_eq_of_lt hoff
  have hsz2 : BIOS.Disk.extSize img e
      = (BIOS.Disk.dapOf e).numberOfSectors * effectiveBPS img := by
    rw [BIOS.Disk.extSize]
    exact Nat.mod_eq_of_lt hsz
  constructor
  · intro hne
    have hres : (BIOS.Disk.extendedReadSectors img e).2
        = setAH { logRead e (getAddress e.ds e.si) DAP.DataSize with
            cf := false
            mem := writeMem
              (getAddress (BIOS.Disk.dapOf e).destinationSegment
                (BIOS.Disk.dapOf e).destinationOffset)
              (img.readRange
                ((BIOS.Disk.dapOf e).logicalBlockAddress * effectiveBPS img)
                ((BIOS.Disk.dapOf e).numberOfSectors * effectiveBPS img))
              e.mem } 0 := by
      simp [BIOS.Disk.extendedReadSectors, hdl, hoff2, hsz2, hne, logRead]
    refine ⟨by rw [hres]; rfl, by rw [hres, ah_setAH], ?_⟩
    intro a
    rw [hres]
    rfl
  · intro hemp
    have hres : (BIOS.Disk.extendedReadSectors img e).2
        = setAH { logRead e (getAddress e.ds e.si) DAP.DataSize with cf := true } 1 := by
      simp [BIOS.Disk.extendedReadSectors, hdl, hoff2, hsz2, hemp, logRead]
    exact ⟨by rw [hres]; rfl, by rw [hres, ah_setAH]⟩

/-- Witness for C2 at a concrete state: the DAP at 0000:0500 requests
one sector (of one byte) at LBA 0 into 0000:0000; the handler writes
byte 5 to address 0 and sets CF=0, AH=0. -/
theorem extendedReadSectors_spec_witness :
    dl dapState = 0
    ∧ ((BIOS.Disk.extendedReadSectors dapImage dapState).2).cf = false
    ∧ ah ((BIOS.Disk.extendedReadSectors dapImage dapState).2) = 0
    ∧ ((BIOS.Disk.extendedReadSectors dapImage dapState).2).mem 0 = 5 := by
  have h := extendedReadSectors_spec dapImage dapState (by decide) (by decide) (by decide)
  obtain ⟨hcf, hah, hmem⟩ := h.1 (by decide)
  refine ⟨by decide, hcf, hah, ?_⟩
  rw [hmem 0]
  decide

/-- Claim C10: on every failure path of INT 13h / AH=02h and AH=42h (a
non-zero drive number or an empty image read) the handler leaves guest
memory exactly as it was. -/
theorem disk_failure_no_write (img : Image) (e : EngineState) :
    ((dl e ≠ 0 ∨ img.readCHS (ch e) (dh e) (cl e) (al e) = []) →
      ((BIOS.Disk.readSectors img e).2).mem = e.mem)
    ∧ ((dl e ≠ 0 ∨ img.readRange (BIOS.Disk.extOffset img e)
          (BIOS.Disk.extSize img e) = []) →
      ((BIOS.Disk.extendedReadSectors img e).2).mem = e.mem) := by
  constructor
  · rintro (hdl | hemp)
    · have hres : (BIOS.Disk.readSectors img e).2
          = setAL (setAH { e with cf := true } 1) 0 := by
        simp [BIOS.Disk.readSectors, hdl]
      rw [hres]
      rfl
    · by_cases hdl : dl e = 0
      · have hres : (BIOS.Disk.readSectors img e).2
            = setAL (setAH { e with cf := true } 1) 0 := by
          simp [BIOS.Disk.readSectors, hdl, hemp]
        rw [hres]
        rfl
      · have hres : (BIOS.Disk.readSectors img e).2
            = setAL (setAH { e with cf := true } 1) 0 := by
          simp [BIOS.Disk.readSectors, hdl]
        rw [hres]
        rfl
  · rintro (hdl | hemp)
    · have hres : (BIOS.Disk.extendedReadSectors img e).2
          = setAH { logRead e (getAddress e.ds e.si) DAP.DataSize with cf := true } 1 := by
        simp [BIOS.Disk.extendedReadSectors, hdl]
      rw [hres]
      rfl
    · by_cases hdl : dl e = 0
      · have hres : (BIOS.Disk.extendedReadSectors img e).2
            = setAH { logRead e (getAddress e.ds e.si) DAP.DataSize with cf := true } 1 := by
          simp [BIOS.Disk.extendedReadSectors, hdl, hemp]
        rw [hres]
        rfl
      · have hres : (BIOS.Disk.extendedReadSectors img e).2
            = setAH { logRead e (getAddress e.ds e.si) DAP.DataSize with cf := true } 1 := by
          simp [BIOS.Disk.extendedReadSectors, hdl]
        rw [hres]
        rfl

/-- Witness for C10 at DL=0x80: neither AH=02h nor AH=42h touches guest
memory on the unsupported-drive failure path. -/
theorem disk_failure_no_write_witness :
    dl badDriveState ≠ 0
    ∧ ((BIOS.Disk.readSectors sampleImage badDriveState).2).mem = badDriveState.mem
    ∧ ((BIOS.Disk.extendedReadSectors sampleImage badDriveState).2).mem
        = badDriveState.mem := by
  have h := disk_failure_no_write sampleImage badDriveState
  exact ⟨by decide, h.1 (Or.inl (by decide)), h.2 (Or.inl (by decide))⟩

/-- Claim C5: the dispatcher callback returns true exactly on the twelve
recognised vectors 0x05, 0x10-0x1A, invoking the matching per-vector
handler on the state, and returns false, leaving the state alone, on
every other interrupt number. -/
theorem onInterrupt_dispatch (H : Handlers) (i : Nat) (e : EngineState) :
    ((onInterruptCallback H i e).1 = true ↔ i ∈ recognisedVectors)
    ∧ (i = 0x05 → (onInterruptCallback H i e).2 = H.int0x05 e)
    ∧ (i = 0x10 → (onInterruptCallback H i e).2 = H.int0x10 e)
    ∧ (i = 0x11 → (onInterruptCallback H i e).2 = H.int0x11 e)
    ∧ (i = 0x12 → (onInterruptCallback H i e).2 = H.int0x12 e)
    ∧ (i = 0x13 → (onInterruptCallback H i e).2 = H.int0x13 e)
    ∧ (i = 0x14 → (onInterruptCallback H i e).2 = H.int0x14 e)
    ∧ (i = 0x15 → (onInterruptCallback H i e).2 = H.int0x15 e)
    ∧ (i = 0x16 → (onInterruptCallback H i e).2 = H.int0x16 e)
    ∧ (i = 0x17 → (onInterruptCallback H i e).2 = H.int0x17 e)
    ∧ (i = 0x18 → (onInterruptCallback H i e).2 = H.int0x18 e)
    ∧ (i = 0x19 → (onInterruptCallback H i e).2 = H.int0x19 e)
    ∧ (i = 0x1A → (onInterruptCallback H i e).2 = H.int0x1A e)
    ∧ (i ∉ recognisedVectors →
        (onInterruptCallback H i e).1 = false ∧ (onInterruptCallback H i e).2 = e) := by
  by_cases h05 : i = 0x05
  · subst h05; simp [onInterruptCallback, recognisedVectors]
  by_cases h10 : i = 0x10
  · subst h10; simp [onInterruptCallback, recognisedVectors]
  by_cases h11 : i = 0x11
  · subst h11; simp [onInterruptCallback, recognisedVectors]
  by_cases h12 : i = 0x12
  · subst h12; simp [onInterruptCallback, recognisedVectors]
  by_cases h13 : i = 0x13
  · subst h13; simp [onInterruptCallback, recognisedVectors]
  by_cases h14 : i = 0x14
  · subst h14; simp [onInterruptCallback, recognisedVectors]
  by_cases h15 : i = 0x15
  · subst h15; simp [onInterruptCallback, recognisedVectors]
  by_cases h16 : i = 0x16
  · subst h16; simp [onInterruptCallback, recognisedVectors]
  by_cases h17 : i = 0x17
  · subst h17; simp [onInterruptCallback, recognisedVectors]
  by_cases h18 : i = 0x18
  · subst h18; simp [onInterruptCallback, recognisedVectors]
  by_cases h19 : i = 0x19
  · subst h19; simp [onInterruptCallback, recognisedVectors]
  by_cases h1A : i = 0x1A
  · subst h1A; simp [onInterruptCallback, recognisedVectors]
  simp [onInterruptCallback, recognisedVectors,
    h05, h10, h11, h12, h13, h14, h15, h16, h17, h18, h19, h1A]

/-- Witness for C5: with identity handlers, vector 0x13 is serviced (and
dispatched to the 0x13 handler) while vector 0x07 is refused with the
state untouched. -/
theorem onInterrupt_dispatch_witness :
    (onInterruptCallback sampleHandlers 0x13 sampleState).1 = true
    ∧ (onInterruptCallback sampleHandlers 0x13 sampleState).2 = sampleState
    ∧ (onInterruptCallback sampleHandlers 0x07 sampleState).1 = false
    ∧ (onInterruptCallback sampleHandlers 0x07 sampleState).2 = sampleState := by
  have h := onInterrupt_dispatch sampleHandlers 0x13 sampleState
  have hother := onInterrupt_dispatch sampleHandlers 0x07 sampleState
  have hdef :=
    hother.2.2.2.2.2.2.2.2.2.2.2.2.2 (by decide)
  refine ⟨h.1.mpr (by decide), ?_, hdef.1, hdef.2⟩
  rw [h.2.2.2.2.2.1 rfl]
  rfl
